import Mathlib

/-!
Verification of the vakio_openair integration core (src/fan.py, src/vakio.py).

The Python code is shallowly embedded: awaited `async` calls are modelled as
pure functions on explicit state, fallible code returns `Except PyError` (or
`PyResult`, which carries the mutated state at the raise site), and machine
integers are `Int`/`Nat` (Python integers are unbounded, so no wrap-around is
modelled).  The fan entity calls several async coordinator methods WITHOUT
`await` (fan.py:143, 146, 152, 220): such a call only creates a coroutine
object — its body never runs — so the embedding binds a `RawValue.coroutine`
where the source binds the call result, and issues no effect for a discarded
coroutine.  The condition cache (`Coordinator.condition`) is a map from
endpoint name to the last raw value received; the fan entity is a record of
its mutable fields.
-/

deriving instance DecidableEq for Except

/-- A Python value flowing through the embedded code: the condition cache
holds ints and strings (`MqttClient.on_message` stores the integer parse of
the payload or the raw payload string, src/vakio.py:78-85); `coroutine` is
the object returned by calling an async method without `await` (its body
never runs), which is what fan.py:220 binds. -/
inductive RawValue where
  | int (n : Int)
  | str (s : String)
  | coroutine
deriving DecidableEq

/-- Python exceptions that the embedded code can raise. -/
inductive PyError where
  | typeError
  | indexError
  | valueError
deriving DecidableEq

/-- The condition cache: endpoint name to last-known raw value
(src/vakio.py:168-175, keys may grow via `on_message`). -/
abbrev Cond := String → Option RawValue

/-- Outcome of a Python method that mutates its object: either a normal
return or an exception together with the object state at the raise site. -/
inductive PyResult (α : Type) where
  | ok (val : α)
  | exn (err : PyError) (st : α)
deriving DecidableEq

/-- Endpoint name constants (src/vakio.py:29-34). -/
def SPEED_ENDPOINT : String := "speed"

def GATE_ENDPOINT : String := "gate"

def STATE_ENDPOINT : String := "state"

def WORKMODE_ENDPOINT : String := "workmode"

def TEMP_ENDPOINT : String := "temp"

def HUD_ENDPOINT : String := "hud"

def ENDPOINTS : List String :=
  [SPEED_ENDPOINT, GATE_ENDPOINT, STATE_ENDPOINT, WORKMODE_ENDPOINT, TEMP_ENDPOINT, HUD_ENDPOINT]

/-- Modelled from the spec: `OPENAIR_STATE_ON` lives in const.py, which is not
under src/; per §4.3 `turnOn`/`turnOff` publish fixed sentinel values to the
`state` endpoint and `isOn` compares the cached state against the "on" sentinel. -/
def OPENAIR_STATE_ON : String := "on"

/-- Modelled from the spec: the "off" sentinel of const.py (see `OPENAIR_STATE_ON`). -/
def OPENAIR_STATE_OFF : String := "off"

/-- Modelled from the spec: `OPENAIR_SPEED_LIST` lives in const.py, which is
not under src/; per §3 it is "an ordered sequence of discrete speed
identifiers (ordinal positions 1..N)", so each named speed is modelled as its
1-based ordinal and the list is parametric in its length `n`. -/
def OPENAIR_SPEED_LIST (n : Nat) : List Nat := List.range' 1 n

/-- Modelled from the spec: `OPENAIR_SPEED_01` of const.py, the first (minimum
non-zero) named speed, i.e. ordinal 1. -/
def OPENAIR_SPEED_01 : Nat := 1

/-- Preset mode vocabulary (src/fan.py:43). -/
def PRESET_MODS : List String := ["Off", "Gate 1", "Gate 2", "Gate 3", "Gate 4", "Super Auto"]

/-- Modelled from the spec: `homeassistant.util.percentage.ordered_list_item_to_percentage`
(an external collaborator whose contract is spec §4.1: "`toPercentage` returns
the upper bound of the named speed's bucket"); it raises ValueError when the
item is not in the list, else returns `(index + 1) * 100 // len`. -/
def ordered_list_item_to_percentage (l : List Nat) (item : Nat) : Except PyError Nat :=
  if item ∈ l then .ok ((l.indexOf item + 1) * 100 / l.length) else .error .valueError

/-- The scanning loop of `percentage_to_ordered_list_item`: walks the list with
a 0-based offset and returns the first item whose bucket upper bound
`(offset + 1) * 100 // listLen` is at least the requested percentage. -/
def p2oli_go (listLen p : Nat) : Nat → List Nat → Option Nat
  | _, [] => none
  | offset, item :: rest =>
    if p ≤ (offset + 1) * 100 / listLen then some item
    else p2oli_go listLen p (offset + 1) rest

/-- Modelled from the spec: `homeassistant.util.percentage.percentage_to_ordered_list_item`
(spec §4.1: picks the named speed whose quantization bucket covers the
percentage); raises ValueError on the empty list, scans the buckets in order,
and falls back to the last item. -/
def percentage_to_ordered_list_item (l : List Nat) (p : Nat) : Except PyError Nat :=
  if l.isEmpty then .error .valueError
  else
    match p2oli_go l.length p 0 l with
    | some item => .ok item
    | none => .ok (l.getLastD 0)

/-- Python `v > m` against an int: int comparison for ints, TypeError for
strings and coroutine objects (`>` is unsupported between those and int). -/
def pyGtNat (v : RawValue) (m : Nat) : Except PyError Bool :=
  match v with
  | .int i => .ok (decide ((m : Int) < i))
  | .str _ => .error .typeError
  | .coroutine => .error .typeError

/-- Python `v == 0`: false for strings and coroutines (cross-type equality
never raises, it is just False). -/
def pyEqZero (v : RawValue) : Bool :=
  match v with
  | .int i => i == 0
  | .str _ => false
  | .coroutine => false

/-- Use of a value as an int (`speed -= 1`); strings and coroutines are a
TypeError. -/
def pyToInt (v : RawValue) : Except PyError Int :=
  match v with
  | .int i => .ok i
  | .str _ => .error .typeError
  | .coroutine => .error .typeError

/-- Python list subscription `l[i]` with negative-index wrap-around and
IndexError outside `[-len, len)`. -/
def pyIndex (l : List Nat) (i : Int) : Except PyError Nat :=
  let j : Int := if i < 0 then i + l.length else i
  if h : 0 ≤ j ∧ j.toNat < l.length then .ok (l.get ⟨j.toNat, h.2⟩) else .error .indexError

/-- `Coordinator.speed()` with no argument / `get_speed` (src/vakio.py:201-206, 229-231):
read the cached speed. -/
def Coordinator.get_speed (c : Cond) : Option RawValue := c SPEED_ENDPOINT

/-- `Coordinator.get_state` (src/vakio.py:237-239): read the cached state. -/
def Coordinator.get_state (c : Cond) : Option RawValue := c STATE_ENDPOINT

/-- `Coordinator.is_on` (src/vakio.py:259-262): Python `==` of the cached state
against the "on" sentinel — false for `None`, ints, and other strings. -/
def Coordinator.is_on (c : Cond) : Bool :=
  match Coordinator.get_state c with
  | some (.str s) => s == OPENAIR_STATE_ON
  | _ => false

/-- The mutable fields of `VakioOpenAirFan` (src/fan.py:86-90). -/
structure Entity where
  percentage : Option Nat
  preset_mode : Option String
  preset_modes : Option (List String)
  oscillating : Option Bool
  direction : Option String
deriving DecidableEq

/-- An externally visible effect of a fan-entity method: an MQTT publish
issued through the coordinator, or a host state-changed notification
(`update_all_options` → `schedule_update_ha_state`, src/fan.py:296-345). -/
inductive Event where
  | publish (endpoint : String) (payload : RawValue)
  | notify
deriving DecidableEq

/-- `VakioOpenAirFan.update_speed` (src/fan.py:215-239).  Line 220,
`speed = self.coordinator.speed()`, calls the async `Coordinator.speed`
WITHOUT `await`, so `speed` is bound to a coroutine object — never `None`
and never the cached value; the condition cache `c` is not read.  The body
then mirrors the source line by line over that binding: in the guard chain
of lines 221-223 `speed is None` is False for a coroutine, so Python
evaluates `speed > len(OPENAIR_SPEED_LIST)`, which is a TypeError for a
coroutine; the later lines (`speed -= 1`, indexing, percentage mapping,
comparison) keep their Python semantics but are unreachable. -/
def update_speed (l : List Nat) (c : Cond) (pct : Option Nat) :
    Except PyError (Option Nat × Bool) :=
  let speed : Option RawValue := some RawValue.coroutine
  match
    (match speed with
     | none => Except.ok true
     | some v =>
       match pyGtNat v l.length with
       | .error e => .error e
       | .ok gt => if gt then .ok true else .ok (pyEqZero v)) with
  | .error e => .error e
  | .ok invalid =>
    if invalid && pct.isSome then .ok (none, true)
    else
      match speed with
      | none => .ok (pct, false)
      | some v =>
        match pyToInt v with
        | .error e => .error e
        | .ok i =>
          match pyIndex l (i - 1) with
          | .error e => .error e
          | .ok named =>
            match ordered_list_item_to_percentage l named with
            | .error e => .error e
            | .ok newPct =>
              if pct ≠ some newPct then .ok (some newPct, true) else .ok (pct, false)

/-- `VakioOpenAirFan.update_preset_mode` (src/fan.py:241-270): the whole body
is commented out in the source; the method unconditionally returns True. -/
def update_preset_mode : Bool := true

/-- Clear the preset mode when it equals the off sentinel
(src/fan.py:290-291). -/
def clear_off_preset (e : Entity) : Entity :=
  if e.preset_mode = some OPENAIR_STATE_OFF then {e with preset_mode := none} else e

/-- `VakioOpenAirFan.update_on_off` (src/fan.py:272-294): when the device is
off, zero a positive percentage; when on with a null/zero percentage, set the
minimum speed's percentage only if the percentage was null, then clear an
"off" preset, returning whether an update was performed. -/
def update_on_off (l : List Nat) (c : Cond) (e : Entity) : Except PyError (Entity × Bool) :=
  if !(Coordinator.is_on c) then
    match e.percentage with
    | some q => if 0 < q then .ok ({e with percentage := some 0}, true) else .ok (e, false)
    | none => .ok (e, false)
  else
    if e.percentage = none ∨ e.percentage = some 0 then
      match e.percentage with
      | none =>
        match ordered_list_item_to_percentage l OPENAIR_SPEED_01 with
        | .error err => .error err
        | .ok p0 => .ok (clear_off_preset {e with percentage := some p0}, true)
      | some _ => .ok (clear_off_preset e, true)
    else .ok (e, false)

/-- `VakioOpenAirFan._async_update` (src/fan.py:199-213): the reconciliation
tick — run the three update steps in order and report whether
`update_all_options` (the host state-changed notification) was triggered.
Because `update_speed` always raises (see its doc comment), the tick
propagates that exception before `update_preset_mode`, `update_on_off` or
`update_all_options` can run. -/
def _async_update (l : List Nat) (c : Cond) (e : Entity) : Except PyError (Entity × Bool) :=
  match update_speed l c e.percentage with
  | .error err => .error err
  | .ok (pct1, b1) =>
    let e1 := {e with percentage := pct1}
    let b2 := update_preset_mode
    match update_on_off l c e1 with
    | .error err => .error err
    | .ok (e2, b3) => .ok (e2, b1 || b2 || b3)

/-- `VakioOpenAirFan.async_set_percentage` (src/fan.py:139-154).  Line 141
stores the requested percentage.  The calls `self.coordinator.turn_off()`
(line 143), `turn_on()` (line 146) and `speed(speed)` (line 152) are async
methods invoked WITHOUT `await`: the coroutines are created and discarded,
their bodies never run, so NO publish is ever issued by this method.  For 0,
`update_all_options` (line 144) then fires a notification and the method
returns.  Otherwise the named speed is computed (line 148, can raise
ValueError on an empty speed list) and `self.update_speed()` (line 153) is
called, which raises TypeError (see `update_speed`); the exception leaves the
method with the entity percentage already set to `p` and no events issued,
which `PyResult.exn` records. -/
def async_set_percentage (l : List Nat) (c : Cond) (e : Entity) (p : Nat) :
    PyResult (Entity × List Event) :=
  let e1 := {e with percentage := some p}
  if p = 0 then
    .ok (e1, [Event.notify])
  else
    match percentage_to_ordered_list_item l p with
    | .error err => .exn err (e1, [])
    | .ok _item =>
      match update_speed l c e1.percentage with
      | .error err => .exn err (e1, [])
      | .ok (pct1, changed) =>
        .ok ({e1 with percentage := pct1}, if changed then [Event.notify] else [])

/-- `VakioOpenAirFan.async_set_preset_mode` (src/fan.py:156-173): raise
ValueError unless the requested mode is in a truthy preset list (Python
truthiness: `None` and `[]` are falsy); store the mode; return silently when
the stored mode equals the off sentinel, else notify. -/
def async_set_preset_mode (e : Entity) (mode : String) : PyResult (Entity × List Event) :=
  let truthy :=
    match e.preset_modes with
    | none => false
    | some pms => !pms.isEmpty && pms.contains mode
  if truthy then
    let e1 := {e with preset_mode := some mode}
    if e1.preset_mode = some OPENAIR_STATE_OFF then PyResult.ok (e1, [])
    else PyResult.ok (e1, [Event.notify])
  else PyResult.exn .valueError (e, [])

/-- `MqttClient.publish` (src/vakio.py:145-155): serialize and publish under
the lock; the result of the underlying client publish (`underlyingOk` here,
bound to `msg_info` in the source) is never inspected — the method returns
True unconditionally. -/
def MqttClient.publish (underlyingOk : Bool) : Bool :=
  let _msg_info := underlyingOk
  true

/-- `Coordinator.speed(value)` with an argument (src/vakio.py:201-206):
forward to `MqttClient.publish` and return its result. -/
def Coordinator.speed_set (underlyingOk : Bool) : Bool := MqttClient.publish underlyingOk

/-- `Coordinator.gate(value)` with an argument (src/vakio.py:208-213). -/
def Coordinator.gate_set (underlyingOk : Bool) : Bool := MqttClient.publish underlyingOk

/-- `Coordinator.state(value)` with an argument (src/vakio.py:215-220). -/
def Coordinator.state_set (underlyingOk : Bool) : Bool := MqttClient.publish underlyingOk

/-- `Coordinator.workmode(value)` with an argument (src/vakio.py:222-227). -/
def Coordinator.workmode_set (underlyingOk : Bool) : Bool := MqttClient.publish underlyingOk

/-- The transport-session state `MqttClient.on_message` acts on: the shared
condition cache and the per-topic subscription flags. -/
structure MqttState where
  condition : Cond
  subscribed : String → Bool

/-- Accumulate the value of a decimal digit string; any non-digit fails. -/
def digitsVal : List Char → Nat → Option Nat
  | [], acc => some acc
  | c :: rest, acc =>
    if c.isDigit then digitsVal rest (acc * 10 + (c.toNat - 48)) else none

/-- Best-effort integer parse of an MQTT payload, modelling Python `int(value)`
on plain decimal payloads: an optional sign followed by at least one digit;
anything else fails, and the caller keeps the raw string
(src/vakio.py:80-83). -/
def pyParseInt (s : String) : Option Int :=
  match s.data with
  | [] => none
  | '-' :: rest =>
    if rest.isEmpty then none else (digitsVal rest 0).map (fun v => -(v : Int))
  | '+' :: rest =>
    if rest.isEmpty then none else (digitsVal rest 0).map (fun v => (v : Int))
  | cs => (digitsVal cs 0).map (fun v => (v : Int))

/-- Python `str.split(topic, "/")[-1]`: the last `/`-separated segment of the
topic, accumulated by a structural walk over the characters (resets at each
`/`, so it equals the final element of the split). -/
def lastSegAux : List Char → List Char → List Char
  | [], acc => acc.reverse
  | c :: rest, acc => if c = '/' then lastSegAux rest [] else lastSegAux rest (c :: acc)

/-- The last path segment of an MQTT topic (see `lastSegAux`). -/
def lastSegment (s : String) : String := String.mk (lastSegAux s.data [])

/-- `MqttClient.on_message` (src/vakio.py:74-85): key the write by the last
`/`-separated segment of the topic, unsubscribe from that topic, and store the
integer parse of the payload, or the raw string when the parse fails. -/
def MqttClient.on_message (st : MqttState) (topic payload : String) : MqttState :=
  let key := lastSegment topic
  let value : RawValue :=
    match pyParseInt payload with
    | some i => RawValue.int i
    | none => RawValue.str payload
  { condition := fun k => if k = key then some value else st.condition k,
    subscribed := fun t => if t = topic then false else st.subscribed t }

/-- The coordinator login state: the logged-in flag (src/vakio.py:176) plus
counters of connect and subscribe calls performed on the transport session. -/
structure LoginState where
  is_logged_in : Bool
  connect_calls : Nat
  subscribe_calls : Nat
deriving DecidableEq

/-- `Coordinator.async_login` (src/vakio.py:178-187): return True immediately
when already logged in; otherwise connect (outcome `connectOk`), subscribe,
mark logged-in regardless of the connect outcome, and return that outcome. -/
def async_login (connectOk : Bool) (s : LoginState) : Bool × LoginState :=
  if s.is_logged_in then (true, s)
  else
    (connectOk,
      { is_logged_in := true,
        connect_calls := s.connect_calls + 1,
        subscribe_calls := s.subscribe_calls + 1 })

/-! ## Helper lemmas about the speed list and the quantization maps -/

theorem speed_list_length (n : Nat) : (OPENAIR_SPEED_LIST n).length = n :=
  List.length_range' 1 1 n

theorem indexOf_range' : ∀ (m s j : Nat), s ≤ j → j < s + m →
    (List.range' s m).indexOf j = j - s := by
  intro m
  induction m with
  | zero => intro s j h1 h2; omega
  | succ m ih =>
    intro s j h1 h2
    rw [List.range'_succ]
    rcases Nat.eq_or_lt_of_le h1 with he | hl
    · rw [← he, List.indexOf_cons_self, Nat.sub_self]
    · have hne : s ≠ j := by omega
      rw [List.indexOf_cons_ne _ hne, ih (s + 1) j (by omega) (by omega)]
      omega

theorem p2oli_go_none (n p : Nat) :
    ∀ (m k : Nat), p2oli_go n p k (List.range' (k + 1) m) = none →
      ∀ j, k + 1 ≤ j → j < k + 1 + m → ¬ p ≤ j * 100 / n := by
  intro m
  induction m with
  | zero => intro k _ j h1 h2; omega
  | succ m ih =>
    intro k h j h1 h2
    rw [List.range'_succ] at h
    simp only [p2oli_go] at h
    by_cases hc : p ≤ (k + 1) * 100 / n
    · rw [if_pos hc] at h; exact absurd h (by simp)
    · rw [if_neg hc] at h
      rcases Nat.eq_or_lt_of_le h1 with he | hl
      · intro hp; exact hc (by rw [he]; exact hp)
      · exact ih (k + 1) h j hl (by omega)

theorem p2oli_go_some (n p : Nat) :
    ∀ (m k j : Nat), p2oli_go n p k (List.range' (k + 1) m) = some j →
      k + 1 ≤ j ∧ j < k + 1 + m ∧ p ≤ j * 100 / n ∧
        ∀ i, k + 1 ≤ i → i < j → ¬ p ≤ i * 100 / n := by
  intro m
  induction m with
  | zero => intro k j h; exact absurd h (by simp [p2oli_go])
  | succ m ih =>
    intro k j h
    rw [List.range'_succ] at h
    simp only [p2oli_go] at h
    by_cases hc : p ≤ (k + 1) * 100 / n
    · rw [if_pos hc] at h
      have hj : k + 1 = j := by injection h
      subst hj
      exact ⟨Nat.le_refl _, by omega, hc, fun i hi1 hi2 => absurd hi2 (by omega)⟩
    · rw [if_neg hc] at h
      obtain ⟨hj1, hj2, hj3, hmin⟩ := ih (k + 1) j h
      refine ⟨by omega, by omega, hj3, fun i hi1 hi2 => ?_⟩
      rcases Nat.eq_or_lt_of_le hi1 with he | hl
      · intro hp; exact hc (by rw [he]; exact hp)
      · exact hmin i hl hi2

theorem div_add_le_div_add_div (a b c : Nat) (hc : 0 < c) :
    (a + b) / c ≤ a / c + b / c + 1 := by
  rw [Nat.add_div hc]
  split <;> omega

theorem chain_sub_le {A B C p : Nat} (h1 : p ≤ C) (h2 : A < p) (h3 : C ≤ A + B + 1) :
    C - p ≤ B := by omega

theorem oli2p_speed_list (n j : Nat) (h1 : 1 ≤ j) (h2 : j ≤ n) :
    ordered_list_item_to_percentage (OPENAIR_SPEED_LIST n) j = .ok (j * 100 / n) := by
  have hmem : j ∈ OPENAIR_SPEED_LIST n := by
    rw [OPENAIR_SPEED_LIST]
    exact List.mem_range'_1.mpr ⟨h1, by omega⟩
  have hidx : (OPENAIR_SPEED_LIST n).indexOf j = j - 1 := by
    rw [OPENAIR_SPEED_LIST]
    exact indexOf_range' n 1 j h1 (by omega)
  unfold ordered_list_item_to_percentage
  rw [if_pos hmem, hidx, speed_list_length]
  have hj : j - 1 + 1 = j := by omega
  rw [hj]

theorem speed_list_not_empty (n : Nat) (hn : 0 < n) :
    (OPENAIR_SPEED_LIST n).isEmpty = false := by
  cases n with
  | zero => exact absurd hn (lt_irrefl 0)
  | succ m => rw [OPENAIR_SPEED_LIST, List.range'_succ]; rfl

theorem p2oli_isOk (l : List Nat) (p : Nat) (h : l.isEmpty = false) :
    ∃ item, percentage_to_ordered_list_item l p = .ok item := by
  unfold percentage_to_ordered_list_item
  rw [h]
  simp only [Bool.false_eq_true, if_false]
  rcases p2oli_go l.length p 0 l with _ | j
  · exact ⟨l.getLastD 0, rfl⟩
  · exact ⟨j, rfl⟩

/-! ## Claim theorems -/

/-- C3: for every percentage p in [0,100], mapping p to a named speed with
`percentage_to_ordered_list_item` and back with
`ordered_list_item_to_percentage` yields a percentage q with
p ≤ q and q - p at most one bucket width 100 / N. -/
theorem spec_C3_roundtrip (n p : Nat) (hn : 0 < n) (hp : p ≤ 100) :
    ∃ item q, percentage_to_ordered_list_item (OPENAIR_SPEED_LIST n) p = .ok item ∧
      ordered_list_item_to_percentage (OPENAIR_SPEED_LIST n) item = .ok q ∧
      p ≤ q ∧ q - p ≤ 100 / n := by
  have hlen : (OPENAIR_SPEED_LIST n).length = n := speed_list_length n
  have hne : (OPENAIR_SPEED_LIST n).isEmpty = false := speed_list_not_empty n hn
  rcases hgo : p2oli_go n p 0 (OPENAIR_SPEED_LIST n) with _ | j
  · exfalso
    have hnone : p2oli_go n p 0 (List.range' (0 + 1) n) = none := hgo
    have := p2oli_go_none n p n 0 hnone n (by omega) (by omega)
    rw [Nat.mul_div_cancel_left 100 hn] at this
    exact this hp
  · have hsome : p2oli_go n p 0 (List.range' (0 + 1) n) = some j := hgo
    obtain ⟨hj1, hj2, hj3, hmin⟩ := p2oli_go_some n p n 0 j hsome
    have hj1' : 1 ≤ j := by omega
    have hj2' : j ≤ n := by omega
    refine ⟨j, j * 100 / n, ?_, oli2p_speed_list n j hj1' hj2', hj3, ?_⟩
    · unfold percentage_to_ordered_list_item
      rw [hne, hlen]
      simp only [Bool.false_eq_true, if_false]
      rw [hgo]
    · rcases Nat.eq_or_lt_of_le hj1' with he | hl
      · have hC : j * 100 / n = 100 / n := by rw [← he, one_mul]
        rw [hC]
        exact Nat.sub_le _ _
      · have hmin1 : (j - 1) * 100 / n < p :=
          Nat.not_le.mp (hmin (j - 1) (by omega) (by omega))
        have hsplit : j * 100 = (j - 1) * 100 + 100 := by omega
        have hgap : j * 100 / n ≤ (j - 1) * 100 / n + 100 / n + 1 := by
          rw [hsplit]
          exact div_add_le_div_add_div _ _ n hn
        exact chain_sub_le hj3 hmin1 hgap

/-- Witness for C3 at N = 7, p = 43: the round trip gives the named speed 4
with percentage 57, and 57 - 43 = 14 = 100 / 7. -/
theorem spec_C3_roundtrip_witness :
    0 < 7 ∧ 43 ≤ 100 ∧
      (∃ item q, percentage_to_ordered_list_item (OPENAIR_SPEED_LIST 7) 43 = .ok item ∧
        ordered_list_item_to_percentage (OPENAIR_SPEED_LIST 7) item = .ok q ∧
        43 ≤ q ∧ q - 43 ≤ 100 / 7) :=
  ⟨by decide, by decide, spec_C3_roundtrip 7 43 (by decide) (by decide)⟩

/-- Condition cache agreeing with `entMatching`: speed 1, state "on". -/
def condMatching : Cond := fun k =>
  if k = SPEED_ENDPOINT then some (RawValue.int 1)
  else if k = STATE_ENDPOINT then some (RawValue.str OPENAIR_STATE_ON) else none

/-- Entity whose fields agree with `condMatching` for N = 7: percentage is the
first bucket 1 * 100 / 7 = 14, the device is on. -/
def entMatching : Entity :=
  { percentage := some 14, preset_mode := none, preset_modes := some PRESET_MODS,
    oscillating := none, direction := none }

/-- A Python boolean: does the event list contain any MQTT publish? -/
def issues_publish (evs : List Event) : Bool :=
  evs.any fun ev =>
    match ev with
    | Event.publish _ _ => true
    | Event.notify => false

/-- C1: the reconciliation tick never reaches the "did anything change"
decision: `update_speed` raises TypeError on every call (the un-awaited
coroutine of fan.py:220 is compared with an int), so `_async_update`
propagates the exception before `update_preset_mode`, `update_on_off` or
`update_all_options` can run — no tick ever emits (or withholds) a
notification based on a comparison.  The second conjunct evaluates the tick
at the claim's own scenario, a condition cache that agrees with the entity
(speed 1, state "on", percentage 14 for N = 7). -/
theorem spec_C1_tick_raises :
    (∀ (l : List Nat) (c : Cond) (e : Entity),
      _async_update l c e = .error .typeError) ∧
    _async_update (OPENAIR_SPEED_LIST 7) condMatching entMatching = .error .typeError :=
  ⟨fun _ _ _ => rfl, rfl⟩

/-- Condition cache holding the string "auto" as the speed. -/
def condSpeedStr : Cond := fun k =>
  if k = SPEED_ENDPOINT then some (RawValue.str "auto") else none

/-- Condition cache holding -1 as the speed. -/
def condSpeedNeg : Cond := fun k =>
  if k = SPEED_ENDPOINT then some (RawValue.int (-1)) else none

/-- Condition cache holding 0 as the speed. -/
def condSpeedZero : Cond := fun k =>
  if k = SPEED_ENDPOINT then some (RawValue.int 0) else none

/-- C2: `update_speed` raises TypeError on EVERY call — fan.py:220 binds the
un-awaited coroutine of `self.coordinator.speed()`, never the cached value,
and `speed > len(OPENAIR_SPEED_LIST)` then raises — so it raises in
particular for each of the claim's out-of-range cached speeds (a string,
a negative integer, zero, and an absent value), none of which is even read. -/
theorem spec_C2_update_speed_always_raises :
    (∀ (l : List Nat) (c : Cond) (pct : Option Nat),
      update_speed l c pct = .error .typeError) ∧
    update_speed (OPENAIR_SPEED_LIST 7) condSpeedStr (some 50) = .error .typeError ∧
    update_speed (OPENAIR_SPEED_LIST 7) condSpeedNeg none = .error .typeError ∧
    update_speed (OPENAIR_SPEED_LIST 7) condSpeedZero (some 14) = .error .typeError ∧
    update_speed (OPENAIR_SPEED_LIST 7) (fun _ => none) (some 14) = .error .typeError :=
  ⟨fun _ _ _ => rfl, rfl, rfl, rfl, rfl⟩

/-- C4: from a not-logged-in state, `async_login` returns the connect outcome,
marks the coordinator logged-in regardless of that outcome, performs exactly
one connect and one subscribe, and every later call returns true with no
further connect or subscribe. -/
theorem spec_C4_login_idempotent (s : LoginState) (c1 c2 : Bool)
    (h : s.is_logged_in = false) :
    (async_login c1 s).1 = c1 ∧
    (async_login c1 s).2.is_logged_in = true ∧
    (async_login c1 s).2.connect_calls = s.connect_calls + 1 ∧
    (async_login c1 s).2.subscribe_calls = s.subscribe_calls + 1 ∧
    (async_login c2 (async_login c1 s).2).1 = true ∧
    (async_login c2 (async_login c1 s).2).2 = (async_login c1 s).2 := by
  refine ⟨?_, ?_, ?_, ?_, ?_, ?_⟩ <;> simp [async_login, h]

/-- Witness for C4: a fresh coordinator state with a failing connect. -/
theorem spec_C4_login_idempotent_witness :
    (LoginState.mk false 0 0).is_logged_in = false ∧
    (async_login false (LoginState.mk false 0 0)).1 = false ∧
    (async_login false (LoginState.mk false 0 0)).2.is_logged_in = true ∧
    (async_login true (async_login false (LoginState.mk false 0 0)).2).1 = true ∧
    (async_login true (async_login false (LoginState.mk false 0 0)).2).2 =
      (async_login false (LoginState.mk false 0 0)).2 := by
  have h := spec_C4_login_idempotent (LoginState.mk false 0 0) false true rfl
  exact ⟨rfl, h.1, h.2.1, h.2.2.2.2.1, h.2.2.2.2.2⟩

/-- C5: `async_set_percentage 0` issues NO publish at all — not the turn-off
command the claim requires.  fan.py:143 calls the async
`self.coordinator.turn_off()` without `await`: the coroutine is discarded and
its body (the off-sentinel publish) never runs; the method stores
percentage 0 and fires only the host notification of `update_all_options`.
Proved for every speed list, cache and entity, with `issues_publish`
certifying that the event trace contains no publish whatsoever. -/
theorem spec_C5_set_percentage_zero_no_publish :
    (∀ (l : List Nat) (c : Cond) (e : Entity),
      async_set_percentage l c e 0 = .ok ({e with percentage := some 0}, [Event.notify])) ∧
    issues_publish [Event.notify] = false :=
  ⟨fun _ _ _ => rfl, rfl⟩

/-- C6 counterexample: when the underlying MQTT publish fails,
`MqttClient.publish` — and hence the `speed` setter — still returns True, not
False as the claim states. -/
theorem spec_C6_counterexample :
    MqttClient.publish false = true ∧ Coordinator.speed_set false = true ∧
      ¬ Coordinator.speed_set false = false := by decide

/-- C6 amended: `MqttClient.publish` never inspects the underlying publish
outcome and returns True unconditionally, so every endpoint setter returns
true regardless of success or failure. -/
theorem spec_C6_publish_always_true (u : Bool) :
    MqttClient.publish u = true ∧ Coordinator.speed_set u = true ∧
      Coordinator.gate_set u = true ∧ Coordinator.state_set u = true ∧
      Coordinator.workmode_set u = true := by
  cases u <;> exact ⟨rfl, rfl, rfl, rfl, rfl⟩

/-- Condition cache with only the state endpoint set to the "on" sentinel. -/
def condStateOn : Cond := fun k =>
  if k = STATE_ENDPOINT then some (RawValue.str OPENAIR_STATE_ON) else none

/-- Entity with a zero (not null) percentage. -/
def entZeroPct : Entity :=
  { percentage := some 0, preset_mode := none, preset_modes := some PRESET_MODS,
    oscillating := none, direction := none }

/-- C7 counterexample: with cached state "on" and entity percentage 0 (a
"null or zero" input of the claim), `update_on_off` flags a change but leaves
the percentage at 0 instead of setting it to the minimum speed's
percentage 14. -/
theorem spec_C7_counterexample :
    update_on_off (OPENAIR_SPEED_LIST 7) condStateOn entZeroPct = .ok (entZeroPct, true) ∧
    ordered_list_item_to_percentage (OPENAIR_SPEED_LIST 7) OPENAIR_SPEED_01 = .ok 14 ∧
    entZeroPct.percentage = some 0 ∧ (some 0 : Option Nat) ≠ some 14 := by decide

/-- C7 amended: when the cached state is the "on" sentinel and the entity
percentage is null or zero, `update_on_off` flags a change, sets the
percentage to the minimum speed's percentage only when it was null (a zero
percentage is left at zero), and clears a preset equal to the off sentinel. -/
theorem spec_C7_on_with_null_or_zero (n : Nat) (c : Cond) (e : Entity) (hn : 0 < n)
    (hOn : Coordinator.is_on c = true)
    (hpct : e.percentage = none ∨ e.percentage = some 0) :
    ∃ e2, update_on_off (OPENAIR_SPEED_LIST n) c e = .ok (e2, true) ∧
      e2.percentage = (if e.percentage = none then some (100 / n) else some 0) ∧
      e2.preset_mode = (if e.preset_mode = some OPENAIR_STATE_OFF then none
        else e.preset_mode) ∧
      e2.preset_modes = e.preset_modes ∧ e2.oscillating = e.oscillating ∧
      e2.direction = e.direction := by
  have holi : ordered_list_item_to_percentage (OPENAIR_SPEED_LIST n) OPENAIR_SPEED_01 =
      .ok (100 / n) := by
    have h := oli2p_speed_list n 1 (le_refl 1) hn
    rwa [one_mul] at h
  unfold update_on_off
  rw [hOn]
  simp only [Bool.not_true, Bool.false_eq_true, if_false]
  rw [if_pos hpct]
  rcases hpe : e.percentage with _ | q
  · rw [holi]
    refine ⟨clear_off_preset {e with percentage := some (100 / n)}, rfl, ?_, ?_, ?_, ?_, ?_⟩ <;>
      by_cases hpm : e.preset_mode = some OPENAIR_STATE_OFF <;>
        simp [clear_off_preset, hpm, hpe]
  · have hq : q = 0 := by
      rcases hpct with h | h
      · rw [hpe] at h; exact absurd h (by simp)
      · rw [hpe] at h; injection h
    refine ⟨clear_off_preset e, rfl, ?_, ?_, ?_, ?_, ?_⟩ <;>
      by_cases hpm : e.preset_mode = some OPENAIR_STATE_OFF <;>
        simp [clear_off_preset, hpm, hpe, hq]

/-- Entity with a null percentage and the "off"-sentinel preset. -/
def entNullPct : Entity :=
  { percentage := none, preset_mode := some OPENAIR_STATE_OFF,
    preset_modes := some PRESET_MODS, oscillating := none, direction := none }

/-- Witness for the amended C7: null percentage and an off preset under a
cached "on" state become percentage 14 with the preset cleared. -/
theorem spec_C7_on_with_null_or_zero_witness :
    0 < 7 ∧ Coordinator.is_on condStateOn = true ∧
    (entNullPct.percentage = none ∨ entNullPct.percentage = some 0) ∧
    (∃ e2, update_on_off (OPENAIR_SPEED_LIST 7) condStateOn entNullPct = .ok (e2, true) ∧
      e2.percentage = (if entNullPct.percentage = none then some (100 / 7) else some 0) ∧
      e2.preset_mode = (if entNullPct.preset_mode = some OPENAIR_STATE_OFF then none
        else entNullPct.preset_mode) ∧
      e2.preset_modes = entNullPct.preset_modes ∧
      e2.oscillating = entNullPct.oscillating ∧
      e2.direction = entNullPct.direction) :=
  ⟨by decide, by decide, Or.inl rfl,
    spec_C7_on_with_null_or_zero 7 condStateOn entNullPct (by decide) (by decide) (Or.inl rfl)⟩

/-- C8: `on_message` writes exactly one condition-cache entry, keyed by the
last path segment of the topic — the integer parse of the payload when it
parses, else the raw payload string — and unsubscribes from exactly that
topic. -/
theorem spec_C8_on_message_cache_write (st : MqttState) (topic payload : String) :
    ((MqttClient.on_message st topic payload).condition (lastSegment topic) =
      some (match pyParseInt payload with
            | some i => RawValue.int i
            | none => RawValue.str payload)) ∧
    (∀ k, k ≠ lastSegment topic →
      (MqttClient.on_message st topic payload).condition k = st.condition k) ∧
    (MqttClient.on_message st topic payload).subscribed topic = false ∧
    (∀ t, t ≠ topic →
      (MqttClient.on_message st topic payload).subscribed t = st.subscribed t) := by
  refine ⟨?_, ?_, ?_, ?_⟩
  · simp [MqttClient.on_message]
  · intro k hk
    simp only [MqttClient.on_message]
    rw [if_neg hk]
  · simp [MqttClient.on_message]
  · intro t ht
    simp only [MqttClient.on_message]
    rw [if_neg ht]

/-- Empty transport state for the C8 witness. -/
def mqtt0 : MqttState := { condition := fun _ => none, subscribed := fun _ => true }

/-- Witness for C8: an inbound "7" on topic "vakio/speed" stores the integer 7
under key "speed", leaves other keys untouched, and unsubscribes only that
topic. -/
theorem spec_C8_on_message_cache_write_witness :
    (MqttClient.on_message mqtt0 "vakio/speed" "7").condition "speed" =
      some (RawValue.int 7) ∧
    (MqttClient.on_message mqtt0 "vakio/speed" "7").condition "state" =
      mqtt0.condition "state" ∧
    (MqttClient.on_message mqtt0 "vakio/speed" "7").subscribed "vakio/speed" = false ∧
    (MqttClient.on_message mqtt0 "vakio/speed" "7").subscribed "vakio/state" =
      mqtt0.subscribed "vakio/state" := by
  have h := spec_C8_on_message_cache_write mqtt0 "vakio/speed" "7"
  have h1 := h.1
  rw [show lastSegment "vakio/speed" = "speed" from by decide,
    show pyParseInt "7" = some 7 from by decide] at h1
  exact ⟨h1, h.2.1 "state" (by decide), h.2.2.1, h.2.2.2 "vakio/state" (by decide)⟩

/-- C9: `async_set_preset_mode` raises ValueError exactly when the requested
mode is not in the preset-mode list (or the list is absent), and on a raise
the entity is unchanged and no publish or notification has been issued. -/
theorem spec_C9_preset_validation (e : Entity) (mode : String) :
    ((∃ err st, async_set_preset_mode e mode = .exn err st) ↔
      (e.preset_modes = none ∨ mode ∉ e.preset_modes.getD [])) ∧
    (∀ err st, async_set_preset_mode e mode = .exn err st →
      err = .valueError ∧ st = (e, [])) := by
  obtain ⟨pct, pmode, pmodes, osc, dir⟩ := e
  rcases pmodes with _ | pms
  · simp [async_set_preset_mode]
  · cases pms with
    | nil => simp [async_set_preset_mode]
    | cons a tl =>
      by_cases hmem : mode ∈ a :: tl
      · have hcont : (a :: tl).contains mode = true := by simp [hmem]
        refine ⟨⟨fun hex => ?_, fun hr => ?_⟩, fun err st hst => ?_⟩
        · obtain ⟨err, st, hst⟩ := hex
          simp only [async_set_preset_mode, List.isEmpty_cons, Bool.not_false,
            Bool.true_and, hcont, if_true] at hst
          split at hst <;> simp at hst
        · rcases hr with h | h
          · exact absurd h (by simp)
          · exact absurd hmem (by simpa using h)
        · simp only [async_set_preset_mode, List.isEmpty_cons, Bool.not_false,
            Bool.true_and, hcont, if_true] at hst
          split at hst <;> simp at hst
      · simp [async_set_preset_mode, hmem]

/-- Entity used for the C9 witness: the fan.py preset vocabulary is present. -/
def entW9 : Entity :=
  { percentage := none, preset_mode := none, preset_modes := some PRESET_MODS,
    oscillating := none, direction := none }

/-- Witness for C9: requesting the unknown mode "Turbo" raises and leaves the
entity unchanged with no events. -/
theorem spec_C9_preset_validation_witness :
    (entW9.preset_modes = none ∨ "Turbo" ∉ entW9.preset_modes.getD []) ∧
    (∃ err st, async_set_preset_mode entW9 "Turbo" = .exn err st) ∧
    async_set_preset_mode entW9 "Turbo" = .exn .valueError (entW9, []) := by
  have h := spec_C9_preset_validation entW9 "Turbo"
  exact ⟨Or.inr (by decide), h.1.mpr (Or.inr (by decide)), by decide⟩

/-- `update_speed` raises TypeError on every call, for every speed list,
cache and entity percentage: fan.py:220 binds the un-awaited coroutine and
fan.py:222 compares it with an int. -/
theorem update_speed_raises (l : List Nat) (c : Cond) (pct : Option Nat) :
    update_speed l c pct = .error .typeError := rfl

/-- C10 counterexample: `async_set_percentage 50` on the N = 7 list with an
empty cache stores percentage 50 and then raises TypeError out of
`update_speed`; the event trace is empty — in particular the named speed for
50 (ordinal 4, which fan.py:148-152 computes and hands to the un-awaited
`coordinator.speed(...)`) is never actually published, refuting the claim's
premise that a quantized named speed "is published to the device". -/
theorem spec_C10_counterexample :
    async_set_percentage (OPENAIR_SPEED_LIST 7) (fun _ => none)
        { percentage := none, preset_mode := none, preset_modes := some PRESET_MODS,
          oscillating := none, direction := none } 50 =
      .exn .typeError
        ({ percentage := some 50, preset_mode := none, preset_modes := some PRESET_MODS,
           oscillating := none, direction := none }, []) ∧
    percentage_to_ordered_list_item (OPENAIR_SPEED_LIST 7) 50 = .ok 4 ∧
    issues_publish [] = false := by decide

/-- C10 amended: for p > 0, `async_set_percentage` stores exactly the
requested p (fan.py:141) and then raises — ValueError from the percentage
helper when the speed list is empty, otherwise TypeError out of
`update_speed` — with no publish or notification issued; the stored
percentage is exactly p, never a quantized bucket value, and it persists
because every later reconciliation tick raises the same way before it can
overwrite anything. -/
theorem spec_C10_set_percentage_raises_keeping_p (l : List Nat) (c : Cond) (e : Entity)
    (p : Nat) (hp : 0 < p) :
    async_set_percentage l c e p =
      .exn (if l.isEmpty then PyError.valueError else PyError.typeError)
        ({e with percentage := some p}, []) := by
  have hp0 : ¬ p = 0 := by omega
  unfold async_set_percentage
  rw [if_neg hp0]
  cases hE : l.isEmpty with
  | false =>
    obtain ⟨item, hitem⟩ := p2oli_isOk l p hE
    rw [hitem]
    dsimp only
    rw [update_speed_raises]
    simp [hE]
  | true =>
    have hperr : percentage_to_ordered_list_item l p = .error .valueError := by
      simp [percentage_to_ordered_list_item, hE]
    rw [hperr]
    simp [hE]

/-- Witness for the amended C10: requesting 43 with a non-empty cache raises
TypeError with the stored percentage exactly 43 and no events. -/
theorem spec_C10_set_percentage_raises_keeping_p_witness :
    0 < 43 ∧
    async_set_percentage (OPENAIR_SPEED_LIST 7) condMatching entMatching 43 =
      .exn .typeError ({entMatching with percentage := some 43}, []) := by
  have h := spec_C10_set_percentage_raises_keeping_p (OPENAIR_SPEED_LIST 7)
    condMatching entMatching 43 (by decide)
  rw [speed_list_not_empty 7 (by decide)] at h
  exact ⟨by decide, by simpa using h⟩
